import Mathlib

/-!
Verification of the compliance monitoring core: a shallow embedding of the
rule evaluation engine (transaction limit, velocity and geographic rules),
risk aggregation, violation lifecycle (overdue computation), dashboard
aggregation, pattern detection and transaction creation/validation, taken
from src/backend/app of the repository.

Modelling conventions: monetary amounts, scores and timestamps are
rationals (timestamps count seconds since the epoch, so Python datetime
arithmetic becomes rational arithmetic and datetime.utcnow() becomes an
explicit now parameter); enum values are represented by their string
values, exactly as the code stores them in the string columns; the
SQLAlchemy session is abstracted into explicit lists of stored rows.
-/

/-- Values stored in the free-form JSON columns (violation_data). -/
inductive JValue where
  | num (q : ℚ)
  | str (s : String)
  | bool (b : Bool)
deriving DecidableEq, Repr

abbrev JObject := List (String × JValue)

/-- Shallow embedding of the Transaction model
(src/backend/app/models/transaction.py). Field defaults mirror the column
defaults; purely descriptive fields that no claim mentions (description,
counterparty fields, ip_address, created_at/updated_at) are omitted. -/
structure Transaction where
  id : Nat := 0
  transaction_id : String := ""
  account_id : String
  amount : ℚ
  currency : String := "AUD"
  transaction_type : String := ""
  transaction_channel : Option String := none
  location_country : String := "AUS"
  location_city : Option String := none
  transaction_timestamp : ℚ
  is_flagged : Bool := false
  risk_score : ℚ := 0
  compliance_status : String := "PENDING"
deriving DecidableEq, Repr

instance : Inhabited Transaction :=
  ⟨{ account_id := "", amount := 0, transaction_timestamp := 0 }⟩

/-- Shallow embedding of the ComplianceViolation model
(src/backend/app/models/compliance.py). Defaults mirror the column
defaults; purely descriptive fields that no claim mentions (title,
description, remediation_actions, assigned_to, resolution_notes,
impact_assessment, acknowledged_at, audit stamps) are omitted. -/
structure ComplianceViolation where
  id : Nat := 0
  violation_id : String := ""
  violation_type : String
  severity : String
  regulatory_framework : String := "APRA"
  standard_reference : String := ""
  requirement_id : String := ""
  transaction_id : Option Nat := none
  risk_score : ℚ
  confidence_score : ℚ := 1
  status : String := "OPEN"
  detected_at : ℚ := 0
  resolved_at : Option ℚ := none
  violation_data : JObject := []
deriving DecidableEq, Repr

/-- The context dict built by ComplianceService._build_evaluation_context
(src/backend/app/services/compliance_service.py, lines 327-342). -/
structure EvalContext where
  recent_transactions : List Transaction
  account_id : String
  evaluation_timestamp : ℚ
deriving DecidableEq, Repr

/-- Configuration of APRATransactionLimitRule
(src/backend/app/services/compliance_service.py, lines 52-62). -/
structure APRATransactionLimitRule where
  limit_amount : ℚ := 10000
deriving DecidableEq, Repr

/-- APRATransactionLimitRule.evaluate (compliance_service.py, lines
64-102): a violation is produced exactly when the amount strictly exceeds
the limit. -/
def APRATransactionLimitRule.evaluate (r : APRATransactionLimitRule)
    (transaction : Transaction) (_context : EvalContext) :
    Option ComplianceViolation :=
  if r.limit_amount < transaction.amount then
    some
      { violation_type := "TRANSACTION_LIMIT"
        severity := "HIGH"
        standard_reference := "CPS 234"
        requirement_id := "CPS234-TXN-001"
        risk_score := min (transaction.amount / r.limit_amount) 10
        confidence_score := 1
        violation_data :=
          [("transaction_amount", JValue.num transaction.amount),
           ("limit_amount", JValue.num r.limit_amount),
           ("excess_amount", JValue.num (transaction.amount - r.limit_amount)),
           ("violation_percentage",
            JValue.num (transaction.amount / r.limit_amount * 100))] }
  else
    none

/-- C2: for every transaction whose amount is at most limit_amount the
Transaction Limit Rule returns no violation; for every transaction whose
amount strictly exceeds limit_amount it returns exactly one violation with
severity HIGH, risk_score = min(amount/limit_amount, 10), and
violation_data carrying excess_amount = amount - limit_amount and
violation_percentage = amount/limit_amount * 100. -/
theorem transaction_limit_rule_spec (r : APRATransactionLimitRule)
    (tx : Transaction) (ctx : EvalContext) :
    (tx.amount ≤ r.limit_amount → r.evaluate tx ctx = none) ∧
    (r.limit_amount < tx.amount →
      (r.evaluate tx ctx).isSome = true ∧
      ∀ v, r.evaluate tx ctx = some v →
        v.severity = "HIGH" ∧
        v.risk_score = min (tx.amount / r.limit_amount) 10 ∧
        v.violation_data.lookup "excess_amount" =
          some (JValue.num (tx.amount - r.limit_amount)) ∧
        v.violation_data.lookup "violation_percentage" =
          some (JValue.num (tx.amount / r.limit_amount * 100))) := by
  constructor
  · intro h
    unfold APRATransactionLimitRule.evaluate
    rw [if_neg (not_lt.mpr h)]
  · intro h
    unfold APRATransactionLimitRule.evaluate
    rw [if_pos h]
    refine ⟨rfl, ?_⟩
    intro v hv
    cases hv
    refine ⟨rfl, rfl, ?_, ?_⟩ <;> rfl

/-- Witness for C2 at limit 10000: amount 9999 yields no violation and
amount 15000 yields a violation. -/
theorem transaction_limit_rule_spec_witness :
    APRATransactionLimitRule.evaluate { limit_amount := 10000 }
      { account_id := "ACC-1", amount := 9999, transaction_timestamp := 0 }
      { recent_transactions := [], account_id := "ACC-1",
        evaluation_timestamp := 0 } = none ∧
    (APRATransactionLimitRule.evaluate { limit_amount := 10000 }
      { account_id := "ACC-1", amount := 15000, transaction_timestamp := 0 }
      { recent_transactions := [], account_id := "ACC-1",
        evaluation_timestamp := 0 }).isSome = true :=
  ⟨(transaction_limit_rule_spec { limit_amount := 10000 }
      { account_id := "ACC-1", amount := 9999, transaction_timestamp := 0 }
      { recent_transactions := [], account_id := "ACC-1",
        evaluation_timestamp := 0 }).1 (by norm_num),
   ((transaction_limit_rule_spec { limit_amount := 10000 }
      { account_id := "ACC-1", amount := 15000, transaction_timestamp := 0 }
      { recent_transactions := [], account_id := "ACC-1",
        evaluation_timestamp := 0 }).2 (by norm_num)).1⟩

/-- Configuration of APRAVelocityRule (compliance_service.py, lines
111-122). -/
structure APRAVelocityRule where
  max_transactions_per_hour : ℕ := 10
  max_amount_per_hour : ℚ := 50000
deriving DecidableEq, Repr

/-- The list comprehension of APRAVelocityRule.evaluate (lines 130-135):
context transactions restricted to the last hour and to the same account;
now models datetime.utcnow() taken inside evaluate. -/
def APRAVelocityRule.recent_hour_transactions (now : ℚ)
    (transaction : Transaction) (context : EvalContext) : List Transaction :=
  context.recent_transactions.filter fun t =>
    decide (now - 3600 ≤ t.transaction_timestamp) &&
      (t.account_id == transaction.account_id)

/-- APRAVelocityRule.evaluate (compliance_service.py, lines 124-184). -/
def APRAVelocityRule.evaluate (r : APRAVelocityRule) (now : ℚ)
    (transaction : Transaction) (context : EvalContext) :
    Option ComplianceViolation :=
  let recent_hour := APRAVelocityRule.recent_hour_transactions now transaction context
  let transaction_count : ℕ := recent_hour.length + 1
  let total_amount : ℚ := (recent_hour.map Transaction.amount).sum + transaction.amount
  if r.max_transactions_per_hour < transaction_count ∨
      r.max_amount_per_hour < total_amount then
    some
      { violation_type := "SUSPICIOUS_PATTERN"
        severity :=
          if r.max_transactions_per_hour * 2 < transaction_count then "CRITICAL"
          else "HIGH"
        standard_reference := "CPS 234"
        requirement_id := "CPS234-VEL-001"
        risk_score :=
          max ((transaction_count : ℚ) / (r.max_transactions_per_hour : ℚ))
            (total_amount / r.max_amount_per_hour)
        confidence_score := 9 / 10
        violation_data :=
          [("transaction_count", JValue.num transaction_count),
           ("max_transactions", JValue.num r.max_transactions_per_hour),
           ("total_amount", JValue.num total_amount),
           ("max_amount", JValue.num r.max_amount_per_hour),
           ("time_window_hours", JValue.num 1),
           ("account_id", JValue.str transaction.account_id)] }
  else
    none

/-- C3: with count = same-account transactions of the last hour plus one
and total = their amounts plus the current amount, the Velocity Rule
triggers iff count > max_transactions_per_hour or total >
max_amount_per_hour; a produced violation has severity CRITICAL iff
count > 2 * max_transactions_per_hour (HIGH otherwise), risk_score =
max(count / max_transactions_per_hour, total / max_amount_per_hour), and
confidence_score = 0.9. -/
theorem velocity_rule_spec (r : APRAVelocityRule) (now : ℚ)
    (tx : Transaction) (ctx : EvalContext) :
    ((r.evaluate now tx ctx).isSome = true ↔
      (r.max_transactions_per_hour <
          (APRAVelocityRule.recent_hour_transactions now tx ctx).length + 1 ∨
        r.max_amount_per_hour <
          ((APRAVelocityRule.recent_hour_transactions now tx ctx).map
            Transaction.amount).sum + tx.amount)) ∧
    (∀ v, r.evaluate now tx ctx = some v →
      (v.severity = "CRITICAL" ↔
        r.max_transactions_per_hour * 2 <
          (APRAVelocityRule.recent_hour_transactions now tx ctx).length + 1) ∧
      (¬ r.max_transactions_per_hour * 2 <
          (APRAVelocityRule.recent_hour_transactions now tx ctx).length + 1 →
        v.severity = "HIGH") ∧
      v.risk_score =
        max ((((APRAVelocityRule.recent_hour_transactions now tx ctx).length + 1 : ℕ) : ℚ) /
            (r.max_transactions_per_hour : ℚ))
          ((((APRAVelocityRule.recent_hour_transactions now tx ctx).map
              Transaction.amount).sum + tx.amount) / r.max_amount_per_hour) ∧
      v.confidence_score = 9 / 10) := by
  unfold APRAVelocityRule.evaluate
  constructor
  · by_cases h : r.max_transactions_per_hour <
        (APRAVelocityRule.recent_hour_transactions now tx ctx).length + 1 ∨
      r.max_amount_per_hour <
        ((APRAVelocityRule.recent_hour_transactions now tx ctx).map
          Transaction.amount).sum + tx.amount
    · rw [if_pos h]
      simpa using h
    · rw [if_neg h]
      simpa using h
  · intro v hv
    by_cases h : r.max_transactions_per_hour <
        (APRAVelocityRule.recent_hour_transactions now tx ctx).length + 1 ∨
      r.max_amount_per_hour <
        ((APRAVelocityRule.recent_hour_transactions now tx ctx).map
          Transaction.amount).sum + tx.amount
    · rw [if_pos h] at hv
      cases hv
      refine ⟨?_, ?_, rfl, rfl⟩
      · by_cases hc : r.max_transactions_per_hour * 2 <
            (APRAVelocityRule.recent_hour_transactions now tx ctx).length + 1
        · rw [if_pos hc]
          simpa using hc
        · rw [if_neg hc]
          simp [hc]
      · intro hc
        rw [if_neg hc]
    · rw [if_neg h] at hv
      cases hv

/-- Witness for C3 at max 2 transactions and max amount 1000 per hour: two
prior same-account transactions in the window trigger the rule. -/
theorem velocity_rule_spec_witness :
    ((⟨2, 1000⟩ : APRAVelocityRule).evaluate 7200
      { account_id := "ACC-A", amount := 600, transaction_timestamp := 7200 }
      { recent_transactions :=
          [{ account_id := "ACC-A", amount := 300, transaction_timestamp := 7000 },
           { account_id := "ACC-A", amount := 300, transaction_timestamp := 6900 }],
        account_id := "ACC-A", evaluation_timestamp := 7200 }).isSome = true :=
  (velocity_rule_spec ⟨2, 1000⟩ 7200
      { account_id := "ACC-A", amount := 600, transaction_timestamp := 7200 }
      { recent_transactions :=
          [{ account_id := "ACC-A", amount := 300, transaction_timestamp := 7000 },
           { account_id := "ACC-A", amount := 300, transaction_timestamp := 6900 }],
        account_id := "ACC-A", evaluation_timestamp := 7200 }).1.mpr
    (by
      left
      norm_num [APRAVelocityRule.recent_hour_transactions, List.filter])

/-- C4: the velocity outcome for a transaction on account A is a function
only of the account A transactions of the context: two contexts whose
recent_transactions agree once filtered to the account of the evaluated
transaction give the same evaluation result, however their transactions
for other accounts differ. -/
theorem velocity_rule_noninterference (r : APRAVelocityRule) (now : ℚ)
    (tx : Transaction) (ctx1 ctx2 : EvalContext)
    (h : ctx1.recent_transactions.filter
          (fun t => t.account_id == tx.account_id) =
        ctx2.recent_transactions.filter
          (fun t => t.account_id == tx.account_id)) :
    r.evaluate now tx ctx1 = r.evaluate now tx ctx2 := by
  have key : APRAVelocityRule.recent_hour_transactions now tx ctx1 =
      APRAVelocityRule.recent_hour_transactions now tx ctx2 := by
    unfold APRAVelocityRule.recent_hour_transactions
    rw [← List.filter_filter, ← List.filter_filter, h]
  unfold APRAVelocityRule.evaluate
  rw [key]

/-- Witness for C4, the regression instance of the spec: ten prior
transactions on account B and one new transaction on account A with a low
limit agree (on account A) with the empty context, and yield no
violation. -/
theorem velocity_rule_noninterference_witness :
    ((⟨2, 1000⟩ : APRAVelocityRule).evaluate 7200
      { account_id := "ACC-A", amount := 100, transaction_timestamp := 7200 }
      { recent_transactions :=
          List.replicate 10
            { account_id := "ACC-B", amount := 100, transaction_timestamp := 7000 },
        account_id := "ACC-A", evaluation_timestamp := 7200 } =
     (⟨2, 1000⟩ : APRAVelocityRule).evaluate 7200
      { account_id := "ACC-A", amount := 100, transaction_timestamp := 7200 }
      { recent_transactions := [], account_id := "ACC-A",
        evaluation_timestamp := 7200 }) ∧
    (⟨2, 1000⟩ : APRAVelocityRule).evaluate 7200
      { account_id := "ACC-A", amount := 100, transaction_timestamp := 7200 }
      { recent_transactions :=
          List.replicate 10
            { account_id := "ACC-B", amount := 100, transaction_timestamp := 7000 },
        account_id := "ACC-A", evaluation_timestamp := 7200 } = none := by
  have hagree := velocity_rule_noninterference ⟨2, 1000⟩ 7200
    { account_id := "ACC-A", amount := 100, transaction_timestamp := 7200 }
    { recent_transactions :=
        List.replicate 10
          { account_id := "ACC-B", amount := 100, transaction_timestamp := 7000 },
      account_id := "ACC-A", evaluation_timestamp := 7200 }
    { recent_transactions := [], account_id := "ACC-A",
      evaluation_timestamp := 7200 }
    (by decide)
  refine ⟨hagree, ?_⟩
  rw [hagree]
  norm_num [APRAVelocityRule.evaluate, APRAVelocityRule.recent_hour_transactions,
    List.filter]

/-- Configuration of APRAGeographicRule (compliance_service.py, lines
193-205), with the default high-risk country list. -/
def default_high_risk_countries : List String :=
  ["AFG", "IRN", "IRQ", "PRK", "SYR", "YEM"]

structure APRAGeographicRule where
  high_risk_countries : List String := default_high_risk_countries
deriving DecidableEq, Repr

/-- APRAGeographicRule.evaluate (compliance_service.py, lines 207-245). -/
def APRAGeographicRule.evaluate (r : APRAGeographicRule)
    (transaction : Transaction) (_context : EvalContext) :
    Option ComplianceViolation :=
  if transaction.location_country ∈ r.high_risk_countries then
    some
      { violation_type := "SUSPICIOUS_PATTERN"
        severity := "CRITICAL"
        standard_reference := "CPS 234"
        requirement_id := "CPS234-GEO-001"
        risk_score := 8
        confidence_score := 1
        violation_data :=
          [("country_code", JValue.str transaction.location_country),
           ("risk_category", JValue.str "HIGH_RISK_COUNTRY"),
           ("transaction_amount", JValue.num transaction.amount),
           ("requires_enhanced_due_diligence", JValue.bool true)] }
  else
    none

/-- A rule as invoked by ComplianceService.evaluate_transaction: the
Python call may raise (modelled by Except.error carrying the message) or
return an optional violation. -/
def RuleFn : Type :=
  Transaction → EvalContext → Except String (Option ComplianceViolation)

/-- The concrete rules never raise; this wraps a total rule into the
RuleFn shape used by the service. -/
def liftRule (f : Transaction → EvalContext → Option ComplianceViolation) :
    RuleFn :=
  fun tx ctx => Except.ok (f tx ctx)

/-- The rule list built by ComplianceService._initialize_rules
(compliance_service.py, lines 265-276); now models datetime.utcnow() as
seen by the velocity rule. -/
def service_rules (now : ℚ) : List RuleFn :=
  [liftRule (APRATransactionLimitRule.evaluate { limit_amount := 10000 }),
   liftRule (APRAVelocityRule.evaluate
     { max_transactions_per_hour := 10, max_amount_per_hour := 50000 } now),
   liftRule (APRAGeographicRule.evaluate {})]

/-- The try/except rule loop of ComplianceService.evaluate_transaction
(lines 288-310): each rule runs in turn; a raised error is logged and
skipped; a returned violation gets its transaction_id set to the
transaction id and is appended to the list. -/
def evalRules (rules : List RuleFn) (tx : Transaction) (ctx : EvalContext) :
    List ComplianceViolation :=
  match rules with
  | [] => []
  | rule :: rest =>
    match rule tx ctx with
    | Except.error _ => evalRules rest tx ctx
    | Except.ok none => evalRules rest tx ctx
    | Except.ok (some v) =>
      { v with transaction_id := some tx.id } :: evalRules rest tx ctx

/-- ComplianceService._build_evaluation_context (lines 327-342): the
transactions of the same account from the last 24 hours, an account id
and an evaluation timestamp; store models the transaction table. -/
def build_evaluation_context (now : ℚ) (transaction : Transaction)
    (store : List Transaction) : EvalContext :=
  { recent_transactions := store.filter fun t =>
      (t.account_id == transaction.account_id) &&
        decide (now - 86400 ≤ t.transaction_timestamp)
    account_id := transaction.account_id
    evaluation_timestamp := now }

/-- Python max over the risk scores of a violation list (line 322); the
code only calls it on non-empty lists. -/
def maxRiskScore : List ComplianceViolation → ℚ
  | [] => 0
  | v :: rest => rest.foldl (fun m w => max m w.risk_score) v.risk_score

/-- ComplianceService.evaluate_transaction (lines 278-325) with
persistence abstracted away: the violation list collected over all rules
together with the transaction as left by the risk aggregation step (lines
316-323, executed only when the list is non-empty). -/
def evaluate_transaction (rules : List RuleFn) (now : ℚ) (tx : Transaction)
    (store : List Transaction) : List ComplianceViolation × Transaction :=
  let context := build_evaluation_context now tx store
  let violations := evalRules rules tx context
  if violations.isEmpty then
    (violations, tx)
  else
    (violations,
     { tx with
        is_flagged := true
        compliance_status := "UNDER_REVIEW"
        risk_score := maxRiskScore violations })

theorem foldl_max_init_le (l : List ℚ) (a : ℚ) : a ≤ l.foldl max a := by
  induction l generalizing a with
  | nil => exact le_refl a
  | cons b l ih => exact le_trans (le_max_left a b) (ih (max a b))

theorem foldl_max_le_of_mem (l : List ℚ) (a x : ℚ) (hx : x ∈ l) :
    x ≤ l.foldl max a := by
  induction l generalizing a with
  | nil => cases hx
  | cons b l ih =>
    rcases List.mem_cons.mp hx with rfl | h
    · exact le_trans (le_max_right a x) (foldl_max_init_le l (max a x))
    · exact ih (max a b) h

theorem foldl_max_eq_or_mem (l : List ℚ) (a : ℚ) :
    l.foldl max a = a ∨ l.foldl max a ∈ l := by
  induction l generalizing a with
  | nil => exact Or.inl rfl
  | cons b l ih =>
    simp only [List.foldl_cons]
    rcases ih (max a b) with h | h
    · rw [h]
      rcases le_total b a with hba | hab
      · exact Or.inl (max_eq_left hba)
      · exact Or.inr (by rw [max_eq_right hab]; exact List.mem_cons_self b l)
    · exact Or.inr (List.mem_cons_of_mem b h)

/-- The Python max of the risk scores of a non-empty list is one of the
risk scores and bounds all of them. -/
theorem maxRiskScore_spec (vs : List ComplianceViolation) (hvs : vs ≠ []) :
    maxRiskScore vs ∈ vs.map ComplianceViolation.risk_score ∧
    ∀ v ∈ vs, v.risk_score ≤ maxRiskScore vs := by
  cases vs with
  | nil => exact absurd rfl hvs
  | cons v rest =>
    have hfold : maxRiskScore (v :: rest) =
        (rest.map ComplianceViolation.risk_score).foldl max v.risk_score := by
      rw [List.foldl_map]
      rfl
    rw [hfold]
    constructor
    · rcases foldl_max_eq_or_mem (rest.map ComplianceViolation.risk_score)
        v.risk_score with h | h
      · rw [h, List.map_cons]
        exact List.mem_cons_self _ _
      · rw [List.map_cons]
        exact List.mem_cons_of_mem _ h
    · intro w hw
      rcases List.mem_cons.mp hw with rfl | h
      · exact foldl_max_init_le _ _
      · exact foldl_max_le_of_mem _ _ _ (List.mem_map_of_mem ComplianceViolation.risk_score h)

theorem evaluate_transaction_fst (rules : List RuleFn) (now : ℚ)
    (tx : Transaction) (store : List Transaction) :
    (evaluate_transaction rules now tx store).1 =
      evalRules rules tx (build_evaluation_context now tx store) := by
  unfold evaluate_transaction
  by_cases h : (evalRules rules tx (build_evaluation_context now tx store)).isEmpty
  · rw [if_pos h]
  · rw [if_neg h]

/-- C1: when the violation list collected by evaluate_transaction is
non-empty, the returned transaction has is_flagged true,
compliance_status UNDER_REVIEW, and risk_score equal to the maximum of
the violations risk scores (it is one of them and bounds all of them);
when the list is empty the transaction is returned unchanged, keeping its
initial unflagged PENDING state. -/
theorem evaluate_transaction_risk_aggregation (rules : List RuleFn) (now : ℚ)
    (tx : Transaction) (store : List Transaction) :
    ((evaluate_transaction rules now tx store).1 ≠ [] →
      (evaluate_transaction rules now tx store).2.is_flagged = true ∧
      (evaluate_transaction rules now tx store).2.compliance_status =
        "UNDER_REVIEW" ∧
      (evaluate_transaction rules now tx store).2.risk_score ∈
        (evaluate_transaction rules now tx store).1.map
          ComplianceViolation.risk_score ∧
      ∀ v ∈ (evaluate_transaction rules now tx store).1,
        v.risk_score ≤ (evaluate_transaction rules now tx store).2.risk_score) ∧
    ((evaluate_transaction rules now tx store).1 = [] →
      (evaluate_transaction rules now tx store).2 = tx) := by
  have h1 := evaluate_transaction_fst rules now tx store
  by_cases h : evalRules rules tx (build_evaluation_context now tx store) = []
  · have h2 : (evaluate_transaction rules now tx store).2 = tx := by
      unfold evaluate_transaction
      rw [if_pos (by rw [h]; rfl)]
    exact ⟨fun hne => absurd (h1.trans h) hne, fun _ => h2⟩
  · have h2 : (evaluate_transaction rules now tx store).2 =
        { tx with
            is_flagged := true
            compliance_status := "UNDER_REVIEW"
            risk_score := maxRiskScore
              (evalRules rules tx (build_evaluation_context now tx store)) } := by
      unfold evaluate_transaction
      rw [if_neg (by simpa [List.isEmpty_iff] using h)]
    constructor
    · intro _
      obtain ⟨hmem, hub⟩ := maxRiskScore_spec _ h
      rw [h1, h2]
      exact ⟨rfl, rfl, hmem, hub⟩
    · intro h0
      exact absurd (h1.symm.trans h0) h

/-- Witness for C1: a 15000 transaction under the default service rules
triggers the limit rule and comes back flagged and UNDER_REVIEW. -/
theorem evaluate_transaction_risk_aggregation_witness :
    (evaluate_transaction (service_rules 0) 0
      { account_id := "ACC-1", amount := 15000, transaction_timestamp := 0 }
      []).2.is_flagged = true ∧
    (evaluate_transaction (service_rules 0) 0
      { account_id := "ACC-1", amount := 15000, transaction_timestamp := 0 }
      []).2.compliance_status = "UNDER_REVIEW" := by
  have hgeo : ¬ (("AUS" : String) ∈ default_high_risk_countries) := by decide
  have hne : (evaluate_transaction (service_rules 0) 0
      { account_id := "ACC-1", amount := 15000, transaction_timestamp := 0 }
      []).1 ≠ [] := by
    rw [evaluate_transaction_fst]
    norm_num [service_rules, liftRule, evalRules, build_evaluation_context,
      APRATransactionLimitRule.evaluate, APRAVelocityRule.evaluate,
      APRAVelocityRule.recent_hour_transactions, APRAGeographicRule.evaluate,
      hgeo, List.filter]
  have hmain := (evaluate_transaction_risk_aggregation (service_rules 0) 0
    { account_id := "ACC-1", amount := 15000, transaction_timestamp := 0 }
    []).1 hne
  exact ⟨hmain.1, hmain.2.1⟩

theorem evalRules_eq_filterMap (rules : List RuleFn) (tx : Transaction)
    (ctx : EvalContext) :
    evalRules rules tx ctx = rules.filterMap fun rule =>
      match rule tx ctx with
      | Except.ok (some v) => some { v with transaction_id := some tx.id }
      | _ => none := by
  induction rules with
  | nil => rfl
  | cons rule rest ih =>
    cases h : rule tx ctx with
    | error e => simp only [evalRules, h, List.filterMap_cons, ih]
    | ok o =>
      cases o with
      | none => simp only [evalRules, h, List.filterMap_cons, ih]
      | some v => simp only [evalRules, h, List.filterMap_cons, ih]

theorem evalRules_transaction_id (rules : List RuleFn) (tx : Transaction)
    (ctx : EvalContext) :
    ∀ v ∈ evalRules rules tx ctx, v.transaction_id = some tx.id := by
  intro v hv
  rw [evalRules_eq_filterMap] at hv
  obtain ⟨rule, _, hfv⟩ := List.mem_filterMap.mp hv
  cases hr : rule tx ctx with
  | error e => rw [hr] at hfv; cases hfv
  | ok o =>
    cases o with
    | none => rw [hr] at hfv; cases hfv
    | some w =>
      rw [hr] at hfv
      cases hfv
      rfl

/-- C5: a rule that raises is skipped and the remaining rules still run
(removing the raising rule from the list does not change the result); the
computed list is exactly the contributions of the non-raising rules in
order, each with transaction_id set to the evaluated transaction id, and
the evaluation as a whole is a total function that cannot fail. -/
theorem rule_error_partial_failure (pre post : List RuleFn) (bad : RuleFn)
    (tx : Transaction) (ctx : EvalContext) (msg : String)
    (h : bad tx ctx = Except.error msg) :
    evalRules (pre ++ bad :: post) tx ctx = evalRules (pre ++ post) tx ctx ∧
    (∀ v ∈ evalRules (pre ++ bad :: post) tx ctx,
      v.transaction_id = some tx.id) ∧
    evalRules (pre ++ post) tx ctx = (pre ++ post).filterMap fun rule =>
      match rule tx ctx with
      | Except.ok (some v) => some { v with transaction_id := some tx.id }
      | _ => none := by
  refine ⟨?_, evalRules_transaction_id _ _ _, evalRules_eq_filterMap _ _ _⟩
  rw [evalRules_eq_filterMap, evalRules_eq_filterMap, List.filterMap_append,
    List.filterMap_append, List.filterMap_cons]
  simp only [h]

/-- Witness for C5: a raising rule placed after the limit rule leaves the
violation list unchanged. -/
theorem rule_error_partial_failure_witness :
    evalRules
      [liftRule (APRATransactionLimitRule.evaluate { limit_amount := 10000 }),
       fun _ _ => Except.error "boom",
       liftRule (APRAGeographicRule.evaluate {})]
      { account_id := "ACC-1", amount := 15000, transaction_timestamp := 0 }
      { recent_transactions := [], account_id := "ACC-1",
        evaluation_timestamp := 0 } =
    evalRules
      [liftRule (APRATransactionLimitRule.evaluate { limit_amount := 10000 }),
       liftRule (APRAGeographicRule.evaluate {})]
      { account_id := "ACC-1", amount := 15000, transaction_timestamp := 0 }
      { recent_transactions := [], account_id := "ACC-1",
        evaluation_timestamp := 0 } :=
  (rule_error_partial_failure
    [liftRule (APRATransactionLimitRule.evaluate { limit_amount := 10000 })]
    [liftRule (APRAGeographicRule.evaluate {})]
    (fun _ _ => Except.error "boom")
    { account_id := "ACC-1", amount := 15000, transaction_timestamp := 0 }
    { recent_transactions := [], account_id := "ACC-1",
      evaluation_timestamp := 0 }
    "boom" rfl).1

/-- Observable storage state after one evaluate_transaction call: the
violations committed to the violation table and whether the transaction
compliance-field update is committed. -/
structure PersistState where
  committedViolations : List ComplianceViolation
  committedTxUpdate : Bool
deriving DecidableEq, Repr

/-- The persistence tail of ComplianceService.evaluate_transaction (lines
312-323): every violation is added to the session and, when the list is
non-empty, committed in a first commit; the transaction flag, status and
risk score are then set and committed in a second commit. A commit either
atomically applies its pending changes (ok flag true) or fails applying
nothing and raising a storage error (ok flag false). The result is the
visible state paired with whether the operation raised. -/
def persistEvaluation (violations : List ComplianceViolation)
    (commit1_ok commit2_ok : Bool) : PersistState × Bool :=
  if violations.isEmpty then
    ({ committedViolations := [], committedTxUpdate := false }, false)
  else if commit1_ok = false then
    ({ committedViolations := [], committedTxUpdate := false }, true)
  else if commit2_ok = false then
    ({ committedViolations := violations, committedTxUpdate := false }, true)
  else
    ({ committedViolations := violations, committedTxUpdate := true }, false)

/-- Violation used for concrete persistence and dashboard inputs. -/
def sampleViolation : ComplianceViolation :=
  { violation_type := "TRANSACTION_LIMIT"
    severity := "HIGH"
    risk_score := 3 / 2 }

/-- C6 (counterexample showing the code bug): with one collected violation,
when the first commit succeeds and the second fails, the operation raises
with the violation already visible in storage while the transaction
compliance-field update is not applied: the write is not atomic and a
half-applied state is observable. -/
theorem persistEvaluation_half_applied :
    (persistEvaluation [sampleViolation] true false).2 = true ∧
    (persistEvaluation [sampleViolation] true false).1.committedViolations =
      [sampleViolation] ∧
    (persistEvaluation [sampleViolation] true false).1.committedTxUpdate =
      false :=
  ⟨rfl, rfl, rfl⟩

/-- ComplianceViolation.is_critical property (models/compliance.py, lines
65-68). -/
def ComplianceViolation.is_critical (v : ComplianceViolation) : Bool :=
  v.severity == "CRITICAL"

/-- ComplianceViolation.is_overdue property (models/compliance.py, lines
70-86); now models datetime.utcnow() at read time. -/
def ComplianceViolation.is_overdue (now : ℚ) (v : ComplianceViolation) :
    Bool :=
  if v.status == "RESOLVED" || v.status == "CLOSED" then false
  else if v.is_critical then decide (24 < (now - v.detected_at) / 3600)
  else if v.severity == "HIGH" then decide (72 < (now - v.detected_at) / 3600)
  else false

/-- C7: the overdue check is a pure function of the violation and the
current time: false for RESOLVED or CLOSED violations; for a CRITICAL
violation not in those states true exactly when more than 24 hours
(86400 seconds) have elapsed since detected_at; for a HIGH violation not
in those states true exactly when more than 72 hours (259200 seconds)
have elapsed; false for every other severity. -/
theorem is_overdue_spec (now : ℚ) (v : ComplianceViolation) :
    ((v.status = "RESOLVED" ∨ v.status = "CLOSED") →
      ComplianceViolation.is_overdue now v = false) ∧
    (v.status ≠ "RESOLVED" → v.status ≠ "CLOSED" → v.severity = "CRITICAL" →
      (ComplianceViolation.is_overdue now v = true ↔
        86400 < now - v.detected_at)) ∧
    (v.status ≠ "RESOLVED" → v.status ≠ "CLOSED" → v.severity = "HIGH" →
      (ComplianceViolation.is_overdue now v = true ↔
        259200 < now - v.detected_at)) ∧
    (v.severity ≠ "CRITICAL" → v.severity ≠ "HIGH" →
      ComplianceViolation.is_overdue now v = false) := by
  have hdiv24 : (24 < (now - v.detected_at) / 3600) ↔
      86400 < now - v.detected_at := by
    rw [lt_div_iff₀ (by norm_num : (0 : ℚ) < 3600)]
    norm_num
  have hdiv72 : (72 < (now - v.detected_at) / 3600) ↔
      259200 < now - v.detected_at := by
    rw [lt_div_iff₀ (by norm_num : (0 : ℚ) < 3600)]
    norm_num
  refine ⟨?_, ?_, ?_, ?_⟩
  · intro h
    rcases h with h | h <;>
      simp [ComplianceViolation.is_overdue, h]
  · intro h1 h2 h3
    simp [ComplianceViolation.is_overdue, ComplianceViolation.is_critical,
      h1, h2, h3, hdiv24]
  · intro h1 h2 h3
    have hc : v.severity ≠ "CRITICAL" := by rw [h3]; decide
    simp [ComplianceViolation.is_overdue, ComplianceViolation.is_critical,
      h1, h2, h3, hc, hdiv72]
  · intro h1 h2
    by_cases hs : v.status == "RESOLVED" || v.status == "CLOSED"
    · simp [ComplianceViolation.is_overdue, hs]
    · simp [ComplianceViolation.is_overdue, ComplianceViolation.is_critical,
        hs, h1, h2]

/-- Witness for C7: an open CRITICAL violation detected at time 0 is
overdue at 25 hours. -/
theorem is_overdue_spec_witness :
    ComplianceViolation.is_overdue 90000
      { violation_type := "TRANSACTION_LIMIT", severity := "CRITICAL",
        risk_score := 5 } = true :=
  ((is_overdue_spec 90000
      { violation_type := "TRANSACTION_LIMIT", severity := "CRITICAL",
        risk_score := 5 }).2.1 (by decide) (by decide) rfl).mpr (by norm_num)

/-- Banker rounding of a rational to an integer (round half to even), the
behaviour of Python round. -/
def roundHalfEven (q : ℚ) : ℤ :=
  if q - ⌊q⌋ < 1 / 2 then ⌊q⌋
  else if 1 / 2 < q - ⌊q⌋ then ⌊q⌋ + 1
  else if ⌊q⌋ % 2 = 0 then ⌊q⌋ else ⌊q⌋ + 1

/-- Python round(x, 2) on rationals. -/
def pythonRound2 (q : ℚ) : ℚ := (roundHalfEven (q * 100) : ℚ) / 100

/-- The ComplianceDashboard response model
(src/backend/app/api/v1/endpoints/compliance.py, lines 83-94). -/
structure ComplianceDashboard where
  total_violations : ℕ
  critical_violations : ℕ
  high_violations : ℕ
  medium_violations : ℕ
  low_violations : ℕ
  open_violations : ℕ
  resolved_violations : ℕ
  overdue_violations : ℕ
  average_resolution_time_hours : ℚ
  compliance_score : ℚ
deriving DecidableEq, Repr

/-- get_compliance_dashboard (endpoints/compliance.py, lines 234-309):
all_violations models the full violation table and now the
datetime.utcnow() seen by the is_overdue reads. The Python sums of ones
over a condition are List.countP; round(x, 2) is pythonRound2. Stored
rows always carry detected_at (column default), so the Python check on
resolved_at and detected_at is resolved_at.isSome here. -/
def get_compliance_dashboard (now : ℚ)
    (all_violations : List ComplianceViolation) : ComplianceDashboard :=
  if all_violations.isEmpty then
    { total_violations := 0, critical_violations := 0, high_violations := 0,
      medium_violations := 0, low_violations := 0, open_violations := 0,
      resolved_violations := 0, overdue_violations := 0,
      average_resolution_time_hours := 0, compliance_score := 100 }
  else
    let critical_count := all_violations.countP fun v => v.severity == "CRITICAL"
    let high_count := all_violations.countP fun v => v.severity == "HIGH"
    let medium_count := all_violations.countP fun v => v.severity == "MEDIUM"
    let low_count := all_violations.countP fun v => v.severity == "LOW"
    let open_count := all_violations.countP fun v =>
      v.status == "OPEN" || v.status == "INVESTIGATING"
    let resolved_count := all_violations.countP fun v =>
      v.status == "RESOLVED" || v.status == "CLOSED"
    let overdue_count := all_violations.countP fun v =>
      ComplianceViolation.is_overdue now v
    let resolved_violations := all_violations.filter fun v => v.resolved_at.isSome
    let average_resolution_time : ℚ :=
      if resolved_violations.isEmpty then 0
      else (resolved_violations.map fun v =>
          (v.resolved_at.getD 0 - v.detected_at) / 3600).sum /
        (resolved_violations.length : ℚ)
    let total_risk_score := (all_violations.map ComplianceViolation.risk_score).sum
    let max_possible_score : ℚ := (all_violations.length : ℚ) * 10
    let base_score : ℚ :=
      if 0 < max_possible_score then
        max 0 (100 - total_risk_score / max_possible_score * 100)
      else 100
    let compliance_score : ℚ :=
      if 0 < overdue_count then
        max 0 (base_score - (overdue_count : ℚ) * 5)
      else base_score
    { total_violations := all_violations.length
      critical_violations := critical_count
      high_violations := high_count
      medium_violations := medium_count
      low_violations := low_count
      open_violations := open_count
      resolved_violations := resolved_count
      overdue_violations := overdue_count
      average_resolution_time_hours := pythonRound2 average_resolution_time
      compliance_score := pythonRound2 compliance_score }

/-- Violation for the C8 counterexample: open, LOW severity, risk score
one third, never overdue. -/
def roundingViolation : ComplianceViolation :=
  { violation_type := "TRANSACTION_LIMIT"
    severity := "LOW"
    risk_score := 1 / 3 }

theorem roundingViolation_not_overdue :
    ComplianceViolation.is_overdue 0 roundingViolation = false := by
  simp [ComplianceViolation.is_overdue, ComplianceViolation.is_critical,
    roundingViolation,
    show (("OPEN" : String) == "RESOLVED") = false from by decide,
    show (("OPEN" : String) == "CLOSED") = false from by decide,
    show (("LOW" : String) == "CRITICAL") = false from by decide,
    show (("LOW" : String) == "HIGH") = false from by decide]

/-- C8 counterexample: the endpoint rounds the compliance score to two
decimal places, so on a single open violation with risk score 1/3 it
returns 96.67 while the exact formula of the claim gives 290/3; the
returned value differs from the claimed one. -/
theorem dashboard_score_rounding_counterexample :
    (get_compliance_dashboard 0 [roundingViolation]).compliance_score ≠
      max 0 (max 0 (100 -
          (([roundingViolation].map ComplianceViolation.risk_score).sum /
            ((([roundingViolation] : List ComplianceViolation).length : ℚ) * 10)) *
            100) -
        5 * (([roundingViolation].countP fun v =>
          ComplianceViolation.is_overdue 0 v : ℕ) : ℚ)) := by
  have hcount : ([roundingViolation].countP fun v =>
      ComplianceViolation.is_overdue 0 v) = 0 := by
    simp [List.countP_cons, roundingViolation_not_overdue]
  have hfloor : ⌊(29000 / 3 : ℚ)⌋ = 9666 := by
    rw [Int.floor_eq_iff]
    constructor <;> norm_num
  have hscore : (get_compliance_dashboard 0 [roundingViolation]).compliance_score =
      pythonRound2 (290 / 3) := by
    rw [get_compliance_dashboard, if_neg (by simp)]
    simp only [roundingViolation_not_overdue, hcount, List.map_cons,
      List.map_nil, List.sum_cons, List.sum_nil, List.length_cons,
      List.length_nil]
    norm_num [show roundingViolation.risk_score = (1 / 3 : ℚ) from rfl]
  rw [hscore]
  have hround : pythonRound2 (290 / 3) = 9667 / 100 := by
    have h1 : (290 / 3 : ℚ) * 100 = 29000 / 3 := by norm_num
    rw [pythonRound2, h1, roundHalfEven, hfloor]
    norm_num
  rw [hround, hcount]
  norm_num [show roundingViolation.risk_score = (1 / 3 : ℚ) from rfl]

/-- C8 amended: over a violation set of size N the dashboard returns
compliance_score = max(0, 100 - (sum of risk_score / (N * 10)) * 100)
minus 5 points per overdue violation, floored at 0 and then rounded to
two decimal places (Python round, half to even); with zero violations it
returns compliance_score 100.0 and every count and the average resolution
time 0; open counts status OPEN or INVESTIGATING, overdue counts the
is_overdue rule, and the average resolution time in hours is taken over
violations having resolved_at set (and detected_at, always present),
also rounded to two decimals. -/
theorem dashboard_spec (now : ℚ) (vs : List ComplianceViolation) :
    (vs = [] → get_compliance_dashboard now vs =
      { total_violations := 0, critical_violations := 0, high_violations := 0,
        medium_violations := 0, low_violations := 0, open_violations := 0,
        resolved_violations := 0, overdue_violations := 0,
        average_resolution_time_hours := 0, compliance_score := 100 }) ∧
    (get_compliance_dashboard now vs).open_violations =
      vs.countP (fun v => v.status == "OPEN" || v.status == "INVESTIGATING") ∧
    (get_compliance_dashboard now vs).overdue_violations =
      vs.countP (fun v => ComplianceViolation.is_overdue now v) ∧
    (vs ≠ [] →
      (get_compliance_dashboard now vs).average_resolution_time_hours =
        pythonRound2
          (if (vs.filter fun v => v.resolved_at.isSome) = [] then 0
           else ((vs.filter fun v => v.resolved_at.isSome).map fun v =>
               (v.resolved_at.getD 0 - v.detected_at) / 3600).sum /
             (((vs.filter fun v => v.resolved_at.isSome).length : ℚ))) ∧
      (get_compliance_dashboard now vs).compliance_score =
        pythonRound2
          (max 0 (max 0 (100 -
              (vs.map ComplianceViolation.risk_score).sum /
                ((vs.length : ℚ) * 10) * 100) -
            5 * ((vs.countP fun v => ComplianceViolation.is_overdue now v : ℕ) : ℚ)))) := by
  by_cases h : vs = []
  · subst h
    exact ⟨fun _ => rfl, rfl, rfl, fun hne => absurd rfl hne⟩
  · have hne : ¬ (vs.isEmpty = true) := by simpa [List.isEmpty_iff] using h
    refine ⟨fun hh => absurd hh h, ?_, ?_, ?_⟩
    · rw [get_compliance_dashboard, if_neg hne]
    · rw [get_compliance_dashboard, if_neg hne]
    · intro _
      constructor
      · rw [get_compliance_dashboard, if_neg hne]
        show pythonRound2 _ = pythonRound2 _
        congr 1
        by_cases hf : (vs.filter fun v => v.resolved_at.isSome) = []
        · rw [if_pos hf, if_pos (by rw [hf]; rfl)]
        · rw [if_neg hf, if_neg (by simpa [List.isEmpty_iff] using hf)]
      · rw [get_compliance_dashboard, if_neg hne]
        show pythonRound2 _ = pythonRound2 _
        congr 1
        have hlen : (0 : ℚ) < (vs.length : ℚ) * 10 := by
          have : 0 < vs.length := List.length_pos.mpr h
          positivity
        rw [if_pos hlen]
        by_cases hod : 0 < vs.countP fun v => ComplianceViolation.is_overdue now v
        · rw [if_pos hod]
          congr 1
          ring
        · rw [if_neg hod, Nat.eq_zero_of_not_pos hod]
          norm_num

/-- Witness for C8 at the empty violation set: the dashboard returns the
zero record with compliance score 100. -/
theorem dashboard_spec_witness :
    get_compliance_dashboard 0 [] =
      { total_violations := 0, critical_violations := 0, high_violations := 0,
        medium_violations := 0, low_violations := 0, open_violations := 0,
        resolved_violations := 0, overdue_violations := 0,
        average_resolution_time_hours := 0, compliance_score := 100 } :=
  (dashboard_spec 0 []).1 rfl

/-- Shallow embedding of the TransactionPattern model
(src/backend/app/models/transaction.py, lines 77-106); the descriptive
pattern_description text is omitted. -/
structure TransactionPattern where
  account_id : String
  pattern_type : String
  confidence_score : ℚ
  frequency_count : ℕ
  time_window_hours : ℕ
  transaction_ids : List String := []
deriving DecidableEq, Repr

/-- TransactionService._detect_velocity_pattern
(src/backend/app/services/transaction_service.py, lines 255-281):
transactions are bucketed by calendar hour (the hour index is the floor
of the timestamp divided by 3600, matching the strftime hour key on UTC
timestamps) and the largest bucket is compared against the threshold. -/
def detect_velocity_pattern (transactions : List Transaction) :
    Option TransactionPattern :=
  let hour_keys := transactions.map fun t => ⌊t.transaction_timestamp / 3600⌋
  let max_hourly_count := (hour_keys.map fun k => hour_keys.count k).foldl max 0
  if 5 < max_hourly_count then
    some
      { account_id := (transactions.headI).account_id
        pattern_type := "VELOCITY"
        confidence_score := min ((max_hourly_count : ℚ) / 10) 1
        frequency_count := max_hourly_count
        time_window_hours := 1
        transaction_ids := transactions.map Transaction.transaction_id }
  else
    none

/-- TransactionService._detect_amount_pattern (transaction_service.py,
lines 283-307): transactions in the band from 9000 inclusive to 10000
exclusive. -/
def detect_amount_pattern (transactions : List Transaction) :
    Option TransactionPattern :=
  let near_threshold := transactions.filter fun t =>
    decide (9000 ≤ t.amount) && decide (t.amount < 10000)
  if 3 ≤ near_threshold.length then
    some
      { account_id := (transactions.headI).account_id
        pattern_type := "AMOUNT"
        confidence_score := min ((near_threshold.length : ℚ) / 5) 1
        frequency_count := near_threshold.length
        time_window_hours := 24
        transaction_ids := near_threshold.map Transaction.transaction_id }
  else
    none

/-- TransactionService._detect_time_pattern (transaction_service.py,
lines 309-335): transactions whose hour of day (the hour index modulo 24)
is at least 22 or at most 6. -/
def detect_time_pattern (transactions : List Transaction) :
    Option TransactionPattern :=
  let unusual := transactions.filter fun t =>
    decide (22 ≤ ⌊t.transaction_timestamp / 3600⌋ % 24) ||
      decide (⌊t.transaction_timestamp / 3600⌋ % 24 ≤ 6)
  if 3 ≤ unusual.length then
    some
      { account_id := (transactions.headI).account_id
        pattern_type := "TEMPORAL"
        confidence_score := min ((unusual.length : ℚ) / 10) 1
        frequency_count := unusual.length
        time_window_hours := 24
        transaction_ids := unusual.map Transaction.transaction_id }
  else
    none

/-- TransactionService.detect_suspicious_patterns (transaction_service.py,
lines 209-253): recent_transactions models the result of the 30-day
account query; with fewer than 5 transactions the empty list is returned
before any detector runs. -/
def detect_suspicious_patterns (recent_transactions : List Transaction) :
    List TransactionPattern :=
  if recent_transactions.length < 5 then []
  else
    (detect_velocity_pattern recent_transactions).toList ++
      (detect_amount_pattern recent_transactions).toList ++
      (detect_time_pattern recent_transactions).toList

/-- The persistence step of detect_suspicious_patterns (lines 240-245):
every detected pattern, and nothing else, is added to the store. -/
def detect_and_persist_patterns (store : List TransactionPattern)
    (recent_transactions : List Transaction) :
    List TransactionPattern × List TransactionPattern :=
  let patterns := detect_suspicious_patterns recent_transactions
  (patterns, store ++ patterns)

/-- C9: for an account with fewer than 5 transactions in the window the
pattern detection returns the empty list, whatever the transactions look
like, and the pattern store is left unchanged. -/
theorem detect_patterns_min_transactions (store : List TransactionPattern)
    (recent : List Transaction) (h : recent.length < 5) :
    detect_suspicious_patterns recent = [] ∧
    (detect_and_persist_patterns store recent).2 = store := by
  have hdet : detect_suspicious_patterns recent = [] := by
    rw [detect_suspicious_patterns, if_pos h]
  refine ⟨hdet, ?_⟩
  rw [detect_and_persist_patterns]
  simp [hdet]

/-- Witness for C9: the four structuring-band amounts of the spec
regression test are still below the minimum, so no pattern is produced or
stored. -/
theorem detect_patterns_min_transactions_witness :
    detect_suspicious_patterns
      [{ account_id := "ACC-9", amount := 9500, transaction_timestamp := 0 },
       { account_id := "ACC-9", amount := 9800, transaction_timestamp := 600 },
       { account_id := "ACC-9", amount := 9200, transaction_timestamp := 1200 },
       { account_id := "ACC-9", amount := 9900, transaction_timestamp := 1800 }] = [] ∧
    (detect_and_persist_patterns []
      [{ account_id := "ACC-9", amount := 9500, transaction_timestamp := 0 },
       { account_id := "ACC-9", amount := 9800, transaction_timestamp := 600 },
       { account_id := "ACC-9", amount := 9200, transaction_timestamp := 1200 },
       { account_id := "ACC-9", amount := 9900, transaction_timestamp := 1800 }]).2 = [] :=
  detect_patterns_min_transactions []
    [{ account_id := "ACC-9", amount := 9500, transaction_timestamp := 0 },
     { account_id := "ACC-9", amount := 9800, transaction_timestamp := 600 },
     { account_id := "ACC-9", amount := 9200, transaction_timestamp := 1200 },
     { account_id := "ACC-9", amount := 9900, transaction_timestamp := 1800 }]
    (by decide)

/-- DataQualityViolation (src/backend/app/core/exceptions.py, lines
137-162); only the field_name diagnostic used by the claims is modelled,
the message, expected_format and actual_value texts are omitted. -/
structure DataQualityViolation where
  field_name : String
deriving DecidableEq, Repr

/-- The transaction_data dict passed to
TransactionService.create_transaction: absent keys are none. -/
structure TransactionData where
  account_id : Option String := none
  amount : Option ℚ := none
  transaction_type : Option String := none
  currency : Option String := none
  description : Option String := none
  counterparty_account : Option String := none
  counterparty_name : Option String := none
  counterparty_bank : Option String := none
  transaction_channel : Option String := none
  location_country : Option String := none
  location_city : Option String := none
  ip_address : Option String := none
  transaction_timestamp : Option ℚ := none
deriving DecidableEq, Repr

/-- TransactionService._validate_transaction_data
(src/backend/app/services/transaction_service.py, lines 80-122): the
required-field loop over account_id, amount and transaction_type, the
positive-amount check, the transaction-type enum check, and the 3-letter
currency check performed only when the currency key is present. -/
def validate_transaction_data (d : TransactionData) :
    Except DataQualityViolation Unit :=
  match d.account_id with
  | none => Except.error { field_name := "account_id" }
  | some _ =>
    match d.amount with
    | none => Except.error { field_name := "amount" }
    | some amount =>
      match d.transaction_type with
      | none => Except.error { field_name := "transaction_type" }
      | some ty =>
        if amount ≤ 0 then Except.error { field_name := "amount" }
        else if ty ∉ (["DEBIT", "CREDIT", "TRANSFER"] : List String) then
          Except.error { field_name := "transaction_type" }
        else
          match d.currency with
          | some c =>
            if c.length ≠ 3 then Except.error { field_name := "currency" }
            else Except.ok ()
          | none => Except.ok ()

/-- TransactionService.create_transaction (transaction_service.py, lines
30-78) up to the construction of the Transaction row: validation followed
by the field defaults of the dict lookups (currency AUD, channel ONLINE,
country AUS, timestamp now); the later persistence and compliance
evaluation act on the returned transaction and are modelled separately by
evaluate_transaction. At this point validation guarantees the required
fields are present, so their getD defaults are never used. -/
def create_transaction (now : ℚ) (d : TransactionData) :
    Except DataQualityViolation Transaction :=
  match validate_transaction_data d with
  | Except.error e => Except.error e
  | Except.ok _ =>
    Except.ok
      { account_id := d.account_id.getD ""
        amount := d.amount.getD 0
        currency := d.currency.getD "AUD"
        transaction_type := d.transaction_type.getD ""
        transaction_channel := some (d.transaction_channel.getD "ONLINE")
        location_country := d.location_country.getD "AUS"
        location_city := d.location_city
        transaction_timestamp := d.transaction_timestamp.getD now }

/-- C10: when validation passes and the optional fields are absent the
created transaction carries the defaults currency AUD, channel ONLINE and
country AUS; the 3-letter currency check never fires when the currency
key is absent; and a transaction created without a stated country is
domestic (AUS), which the Geographic Rule with its default high-risk list
can never flag. -/
theorem create_transaction_defaults (now : ℚ) (d : TransactionData) :
    (∀ e, d.currency = none →
      validate_transaction_data d = Except.error e →
      e.field_name ≠ "currency") ∧
    (∀ tx, create_transaction now d = Except.ok tx →
      (d.currency = none → tx.currency = "AUD") ∧
      (d.transaction_channel = none → tx.transaction_channel = some "ONLINE") ∧
      (d.location_country = none → tx.location_country = "AUS") ∧
      (d.location_country = none → ∀ ctx,
        APRAGeographicRule.evaluate {} tx ctx = none)) := by
  constructor
  · intro e hcur he
    rw [validate_transaction_data] at he
    split at he
    · cases he
      decide
    · split at he
      · cases he
        decide
      · split at he
        · cases he
          decide
        · split at he
          · cases he
            decide
          · split at he
            · cases he
              decide
            · rw [hcur] at he
              cases he
  · intro tx htx
    rw [create_transaction] at htx
    cases hv : validate_transaction_data d with
    | error e =>
      rw [hv] at htx
      cases htx
    | ok u =>
      rw [hv] at htx
      cases htx
      refine ⟨?_, ?_, ?_, ?_⟩
      · intro hcur
        simp [hcur]
      · intro hch
        simp [hch]
      · intro hlc
        simp [hlc]
      · intro hlc ctx
        rw [APRAGeographicRule.evaluate,
          if_neg (by simp [hlc, default_high_risk_countries])]

/-- Witness for C10: a minimal valid payload with only the required
fields produces a transaction with the three defaults, and the default
Geographic Rule does not flag it. -/
theorem create_transaction_defaults_witness :
    ({ account_id := "ACC-1", amount := 500,
        transaction_type := "DEBIT",
        transaction_channel := some "ONLINE",
        transaction_timestamp := 0 } : Transaction).currency = "AUD" ∧
    ({ account_id := "ACC-1", amount := 500,
        transaction_type := "DEBIT",
        transaction_channel := some "ONLINE",
        transaction_timestamp := 0 } : Transaction).transaction_channel =
      some "ONLINE" ∧
    ({ account_id := "ACC-1", amount := 500,
        transaction_type := "DEBIT",
        transaction_channel := some "ONLINE",
        transaction_timestamp := 0 } : Transaction).location_country = "AUS" ∧
    APRAGeographicRule.evaluate {}
      { account_id := "ACC-1", amount := 500,
        transaction_type := "DEBIT",
        transaction_channel := some "ONLINE",
        transaction_timestamp := 0 }
      { recent_transactions := [], account_id := "ACC-1",
        evaluation_timestamp := 0 } = none := by
  have h := (create_transaction_defaults 0
    { account_id := some "ACC-1", amount := some 500,
      transaction_type := some "DEBIT" }).2
    { account_id := "ACC-1", amount := 500,
      transaction_type := "DEBIT",
      transaction_channel := some "ONLINE",
      transaction_timestamp := 0 }
    rfl
  exact ⟨h.1 rfl, h.2.1 rfl, h.2.2.1 rfl, h.2.2.2 rfl _⟩
